import Mathlib

/-!
Shallow embedding of the connection-and-transaction management layer of the
postmodel repository (src/postmodel/asyncdb/base/client.py,
src/postmodel/asyncdb/asyncpg/client.py, src/postmodel/transactions.py).

Connections, locks and tasks are identified by natural numbers.  The pooled
driver (asyncpg) is external to the repository; its pool is modelled as the
set of free and checked-out connection identifiers, where releasing an object
that is not a checked-out connection of the pool raises the driver
InterfaceError.  Python exceptions are modelled as an error taxonomy value
threaded next to the mutated state: a Python `raise` does not undo earlier
attribute mutations, so every operation returns the world as mutated so far
together with an optional error.
-/

namespace Postmodel

/-- Error taxonomy of postmodel.exceptions, plus the two asyncpg driver error
categories caught by translate_exceptions and the driver InterfaceError.
`otherError` stands for an arbitrary user exception raised inside a scope. -/
inductive DBError where
  | operationalError (msg : String)
  | transactionManagementError (msg : String)
  | integrityError (msg : String)
  | dbConnectionError (msg : String)
  | paramsError (msg : String)
  | interfaceError (msg : String)
  | syntaxOrAccessError (msg : String)
  | integrityConstraintViolationError (msg : String)
  | otherError (msg : String)
deriving DecidableEq

/-- issubclass(exc_type, TransactionManagementError), the test made by
BaseTransactionWrapper.__aexit__. -/
def DBError.isTME : DBError → Bool
  | .transactionManagementError _ => true
  | _ => false

/-- A connection source: what a client ContextVar holds.  Either the client
itself (the default) or a TransactionWrapper, identified by its index in the
world's wrapper store. -/
inductive Source where
  | client
  | wrapper (i : Nat)
deriving DecidableEq

/-- Observable effects of a run: pool traffic, native commands sent on a
connection, ContextVar writes, and instrumentation marking that start /
finalize bodies ran (past their guards). -/
inductive Event where
  | poolAcquire (c : Nat)
  | poolRelease (c : Nat)
  | poolCreate
  | nativeBegin (c : Nat)
  | nativeCommit (c : Nat)
  | nativeRollback (c : Nat)
  | registrySet (t : Nat) (s : Source)
  | startRun (i : Nat)
  | finalizeRun (i : Nat)
  | driverExec (c : Nat) (query : String)
deriving DecidableEq

/-- The asyncpg pool, abstracted to the identifiers of its free and
checked-out connections. -/
structure Pool where
  available : List Nat
  inUse : List Nat
deriving DecidableEq

/-- pool.acquire(): hand out a free connection.  An empty free list means the
caller would block; we model that as no result. -/
def Pool.acquire (p : Pool) : Option (Nat × Pool) :=
  match p.available with
  | [] => none
  | c :: rest => some (c, { available := rest, inUse := c :: p.inUse })

/-- pool.release(connection): return a checked-out connection.  Releasing
anything that is not currently checked out raises InterfaceError in asyncpg;
that is the `none` result. -/
def Pool.release (c : Nat) (p : Pool) : Option Pool :=
  if c ∈ p.inUse then
    some { available := p.available ++ [c], inUse := p.inUse.erase c }
  else
    none

/-- Mutable attribute state of one TransactionWrapper
(src/postmodel/asyncdb/asyncpg/client.py, TransactionWrapper.__init__):
self._connection, whether self.transaction holds a started native transaction
object, self._old_context_value, self._finalized, self._parent, self._lock
(locks are identified by allocation number, so lock equality is object
identity). -/
structure WrapperState where
  connection : Option Nat
  txnStarted : Bool
  oldContextValue : Option Source
  finalized : Bool
  parent : Source
  lock : Nat
deriving DecidableEq

/-- Per-task ContextVar lookup: the value task t last set, if any. -/
def lookupTask (t : Nat) : List (Nat × Source) → Option Source
  | [] => none
  | (t', s) :: rest => if t' = t then some s else lookupTask t rest

/-- ContextVar.set performed while task t is running: only task t's entry
changes (asyncio gives every task its own context copy). -/
def setTask (t : Nat) (s : Source) : List (Nat × Source) → List (Nat × Source)
  | [] => [(t, s)]
  | (t', s') :: rest => if t' = t then (t', s) :: rest else (t', s') :: setTask t s rest

/-- The world of one client: its pool, the client ContextVar
self._current_transaction (a per-task registry defaulting to the client),
the store of TransactionWrapper objects, the allocation counter for
asyncio.Lock objects, the trace of observable effects, and the keys of
Postmodel._connections. -/
structure World where
  pool : Pool
  registry : List (Nat × Source)
  wrappers : List WrapperState
  nextLock : Nat
  trace : List Event
  connectionNames : List String
deriving DecidableEq

/-- BaseDBAsyncClient.get_current_transaction for task t:
self._current_transaction.get(), whose ContextVar default is the client. -/
def World.getCurrentTransaction (t : Nat) (w : World) : Source :=
  match lookupTask t w.registry with
  | some s => s
  | none => Source.client

/-- A fresh world: pool already created with the given free connections,
no task has set the ContextVar, no wrapper exists yet. -/
def mkWorld (conns : List Nat) (names : List String) : World :=
  { pool := { available := conns, inUse := [] }
    registry := []
    wrappers := []
    nextLock := 0
    trace := []
    connectionNames := names }

/-- asyncio task spawn: the child task starts with a copy of the spawning
task's context, so it inherits the spawner's current ContextVar value. -/
def spawnTask (parent child : Nat) (w : World) : World :=
  { w with registry := setTask child (w.getCurrentTransaction parent) w.registry }

/-- _in_transaction composed with TransactionWrapper.__init__.
AsyncpgDBClient._in_transaction builds TransactionWrapper(None, self);
TransactionWrapper._in_transaction builds
TransactionWrapper(self._connection, self).  The constructor copies the
parent connection argument, shares the parent lock when the parent is itself
a TransactionWrapper and allocates a fresh asyncio.Lock otherwise, and
starts with transaction = None, _old_context_value = None, _finalized =
False.  Returns the new wrapper index. -/
def inTransaction (src : Source) (w : World) : Nat × World :=
  let i := w.wrappers.length
  match src with
  | Source.client =>
      (i, { w with
              wrappers := w.wrappers ++
                [{ connection := none, txnStarted := false, oldContextValue := none
                   finalized := false, parent := src, lock := w.nextLock }]
              nextLock := w.nextLock + 1 })
  | Source.wrapper j =>
      match w.wrappers[j]? with
      | some pw =>
          (i, { w with
                  wrappers := w.wrappers ++
                    [{ connection := pw.connection, txnStarted := false
                       oldContextValue := none, finalized := false
                       parent := src, lock := pw.lock }] })
      | none => (i, w)

/-- TransactionWrapper.start executed by task t on wrapper i:
if not self._connection: self._connection = await self._pool.acquire();
self.transaction = self._connection.transaction();
await self.transaction.start();
self._old_context_value = self._current_transaction.get();
self._current_transaction.set(self).
There is no guard against a second invocation. -/
def start (t i : Nat) (w : World) : World × Option DBError :=
  match w.wrappers[i]? with
  | none => (w, some (DBError.otherError "invalid wrapper"))
  | some ws =>
      let run : Nat → Pool → List Event → World × Option DBError := fun c pool acqEvents =>
        let old := w.getCurrentTransaction t
        let ws' := { ws with connection := some c, txnStarted := true
                             oldContextValue := some old }
        ({ w with
             pool := pool
             wrappers := w.wrappers.set i ws'
             registry := setTask t (Source.wrapper i) w.registry
             trace := w.trace ++ [Event.startRun i] ++ acqEvents ++
               [Event.nativeBegin c, Event.registrySet t (Source.wrapper i)] },
         none)
      match ws.connection with
      | some c => run c w.pool []
      | none =>
          match w.pool.acquire with
          | some (c, p) => run c p [Event.poolAcquire c]
          | none => (w, some (DBError.otherError "pool acquire would block"))

/-- TransactionWrapper.finalize executed by task t on wrapper i:
if not self._old_context_value: raise OperationalError(...);
self._finalized = True;
self._current_transaction.set(self._old_context_value);
await self._pool.release(self._connection);
self._connection = None.
Note the guard tests _old_context_value, not _finalized, and nothing clears
_old_context_value, so nothing stops finalize from running twice. -/
def finalize (t i : Nat) (w : World) : World × Option DBError :=
  match w.wrappers[i]? with
  | none => (w, some (DBError.otherError "invalid wrapper"))
  | some ws =>
      match ws.oldContextValue with
      | none => (w, some (DBError.operationalError "Finalize was called before transaction start"))
      | some old =>
          let ws1 := { ws with finalized := true }
          let w1 := { w with
                        wrappers := w.wrappers.set i ws1
                        registry := setTask t old w.registry
                        trace := w.trace ++ [Event.finalizeRun i, Event.registrySet t old] }
          match ws.connection with
          | none => (w1, some (DBError.interfaceError "released a non-pool member"))
          | some c =>
              match w1.pool.release c with
              | none => (w1, some (DBError.interfaceError "released a non-pool member"))
              | some p =>
                  ({ w1 with
                       pool := p
                       wrappers := w1.wrappers.set i { ws1 with connection := none }
                       trace := w1.trace ++ [Event.poolRelease c] },
                   none)

/-- TransactionWrapper.commit executed by task t on wrapper i:
if self._finalized: raise TransactionManagementError(...);
await self.transaction.commit();
await self.finalize(). -/
def commit (t i : Nat) (w : World) : World × Option DBError :=
  match w.wrappers[i]? with
  | none => (w, some (DBError.otherError "invalid wrapper"))
  | some ws =>
      if ws.finalized then
        (w, some (DBError.transactionManagementError "Transaction already finalised"))
      else if ws.txnStarted then
        finalize t i
          { w with trace := w.trace ++ [Event.nativeCommit (ws.connection.getD 0)] }
      else
        (w, some (DBError.otherError "transaction attribute is None"))

/-- TransactionWrapper.rollback executed by task t on wrapper i:
if self._finalized: raise TransactionManagementError(...);
await self.transaction.rollback();
await self.finalize(). -/
def rollback (t i : Nat) (w : World) : World × Option DBError :=
  match w.wrappers[i]? with
  | none => (w, some (DBError.otherError "invalid wrapper"))
  | some ws =>
      if ws.finalized then
        (w, some (DBError.transactionManagementError "Transaction already finalised"))
      else if ws.txnStarted then
        finalize t i
          { w with trace := w.trace ++ [Event.nativeRollback (ws.connection.getD 0)] }
      else
        (w, some (DBError.otherError "transaction attribute is None"))

/-- BaseTransactionWrapper.__aexit__ executed by task t on wrapper i after the
body of the scoped block finished with `exc` (none = normal exit).  __aexit__
returns None, so an original exception is never suppressed: the caller sees
the original exception unless the terminating call itself raises, in which
case the new exception replaces it. -/
def aexit (t i : Nat) (exc : Option DBError) (w : World) : World × Option DBError :=
  match exc with
  | none => commit t i w
  | some e =>
      if e.isTME then
        let (w', r) := finalize t i w
        (w', some (r.getD e))
      else
        let (w', r) := rollback t i w
        (w', some (r.getD e))

/-- translate_exceptions: the decorator on every AsyncpgDBClient execute
method catches asyncpg.SyntaxOrAccessError as OperationalError and
asyncpg.IntegrityConstraintViolationError as IntegrityError; every other
exception propagates unmodified. -/
def translateExceptions : Option DBError → Option DBError
  | some (DBError.syntaxOrAccessError m) => some (DBError.operationalError m)
  | some (DBError.integrityConstraintViolationError m) => some (DBError.integrityError m)
  | r => r

/-- async with PoolConnectionDispatcher(self._pool) as connection: ... .
__aenter__ acquires one connection from the pool; __aexit__ releases that
same connection, and Python runs __aexit__ whether or not the body raised,
re-raising the body error afterwards. -/
def poolScoped (body : Nat → World → World × Option DBError) (w : World) :
    World × Option DBError :=
  match w.pool.acquire with
  | none => (w, some (DBError.otherError "pool acquire would block"))
  | some (c, p) =>
      let w1 := { w with pool := p, trace := w.trace ++ [Event.poolAcquire c] }
      let (w2, r) := body c w1
      match w2.pool.release c with
      | none => (w2, some (DBError.interfaceError "released a non-pool member"))
      | some p2 => ({ w2 with pool := p2, trace := w2.trace ++ [Event.poolRelease c] }, r)

/-- One driver call on the borrowed connection; `bodyErr` is the exception
the driver raises, if any (none = success). -/
def driverCall (query : String) (bodyErr : Option DBError) (c : Nat) (w : World) :
    World × Option DBError :=
  match bodyErr with
  | some e => (w, some e)
  | none => ({ w with trace := w.trace ++ [Event.driverExec c query] }, none)

/-- AsyncpgDBClient.execute_insert: borrow a connection, prepare the
statement and fetch the inserted row, return the connection. -/
def executeInsert (query : String) (bodyErr : Option DBError) (w : World) :
    World × Option DBError :=
  let (w', r) := poolScoped (driverCall query bodyErr) w
  (w', translateExceptions r)

/-- AsyncpgDBClient.execute_many: borrow a connection, run executemany,
return the connection. -/
def executeMany (query : String) (bodyErr : Option DBError) (w : World) :
    World × Option DBError :=
  let (w', r) := poolScoped (driverCall query bodyErr) w
  (w', translateExceptions r)

/-- AsyncpgDBClient.execute_query: borrow a connection, fetch the rows,
return the connection. -/
def executeQuery (query : String) (bodyErr : Option DBError) (w : World) :
    World × Option DBError :=
  let (w', r) := poolScoped (driverCall query bodyErr) w
  (w', translateExceptions r)

/-- AsyncpgDBClient.execute_script: borrow a connection, execute the script,
return the connection. -/
def executeScript (query : String) (bodyErr : Option DBError) (w : World) :
    World × Option DBError :=
  let (w', r) := poolScoped (driverCall query bodyErr) w
  (w', translateExceptions r)

/-- The attribute state of AsyncpgDBClient that create_connection touches:
self._template (the empty dict before the first call, afterwards recording
the with_db flag it was built from), self._pool, self.schema, and the
configured minimum pool size. -/
structure ClientState where
  template : Option Bool
  pool : Option Pool
  schema : Option String
  minSize : Nat
deriving DecidableEq

/-- AsyncpgDBClient.create_connection(with_db): always reassigns
self._template; creates the pool only when self._pool is falsy; then,
whenever self.schema is set, runs SET search_path through execute_script —
on every call, not only on the creating one. -/
def createConnection (withDb : Bool) (st : ClientState) :
    ClientState × List Event × Option DBError :=
  let st1 := { st with template := some withDb }
  let (st2, ev1) :=
    match st1.pool with
    | some _ => (st1, ([] : List Event))
    | none => ({ st1 with pool := some { available := List.range st1.minSize, inUse := [] } },
               [Event.poolCreate])
  match st2.schema with
  | none => (st2, ev1, none)
  | some s =>
      match st2.pool with
      | none => (st2, ev1, some (DBError.otherError "no pool"))
      | some p =>
          match p.acquire with
          | none => (st2, ev1, some (DBError.otherError "pool acquire would block"))
          | some (c, p1) =>
              match p1.release c with
              | none => ({ st2 with pool := some p1 },
                         ev1 ++ [Event.poolAcquire c],
                         some (DBError.interfaceError "released a non-pool member"))
              | some p2 =>
                  ({ st2 with pool := some p2 },
                   ev1 ++ [Event.poolAcquire c,
                           Event.driverExec c ("SET search_path TO " ++ s),
                           Event.poolRelease c],
                   none)

/-- transactions._get_connection executed by task t.  Modelled from the
spec where it leaves src/: Postmodel._connections (the registry of named
clients) lives in postmodel/__init__.py, which is not under src/; the world
carries its key list, every key names the world's single client, and
Postmodel.get_connection(name) is a dict lookup failing on a missing name.
With no name: use the single registered connection when exactly one exists,
otherwise raise ParamsError. -/
def getConnection (t : Nat) (name : Option String) (w : World) : Except DBError Source :=
  match name with
  | some n =>
      if n ∈ w.connectionNames then Except.ok (w.getCurrentTransaction t)
      else Except.error (DBError.otherError "unknown connection name")
  | none =>
      if w.connectionNames.length = 1 then Except.ok (w.getCurrentTransaction t)
      else Except.error (DBError.paramsError
        "You are running with multiple databases, so you should specify connection_name")

/-- transactions.in_transaction(connection_name) executed by task t:
_get_connection, then connection._in_transaction(); start is not called. -/
def inTransactionAPI (t : Nat) (name : Option String) (w : World) :
    World × Option DBError × Option Nat :=
  match getConnection t name w with
  | Except.error e => (w, some e, none)
  | Except.ok src =>
      let (i, w') := inTransaction src w
      (w', none, some i)

/-- transactions.start_transaction(connection_name) executed by task t:
_get_connection, connection._in_transaction(), await transaction.start(),
return the transaction. -/
def startTransaction (t : Nat) (name : Option String) (w : World) :
    World × Option DBError × Option Nat :=
  match getConnection t name w with
  | Except.error e => (w, some e, none)
  | Except.ok src =>
      let (i, w') := inTransaction src w
      let (w'', r) := start t i w'
      match r with
      | some e => (w'', some e, none)
      | none => (w'', none, some i)

/-- A call to a function wrapped by transactions.atomic(connection_name),
executed by task t: the wrapper does _get_connection at call time, then runs
the body inside `async with connection._in_transaction()`; `bodyErr` is the
body's outcome. -/
def atomicCall (t : Nat) (name : Option String) (bodyErr : Option DBError) (w : World) :
    World × Option DBError :=
  match getConnection t name w with
  | Except.error e => (w, some e)
  | Except.ok src =>
      let (i, w') := inTransaction src w
      let (w1, r1) := start t i w'
      match r1 with
      | some e => (w1, some e)
      | none => aexit t i bodyErr w1

/-! ## Helper lemmas -/

theorem lookupTask_setTask_self (t : Nat) (s : Source) (l : List (Nat × Source)) :
    lookupTask t (setTask t s l) = some s := by
  induction l with
  | nil => simp [setTask, lookupTask]
  | cons hd tl ih =>
      obtain ⟨t', s'⟩ := hd
      by_cases h : t' = t
      · subst h
        simp [setTask, lookupTask]
      · simp [setTask, lookupTask, h, ih]

theorem lookupTask_setTask_ne (t t' : Nat) (h : t ≠ t') (s : Source) (l : List (Nat × Source)) :
    lookupTask t' (setTask t s l) = lookupTask t' l := by
  induction l with
  | nil => simp [setTask, lookupTask, h]
  | cons hd tl ih =>
      obtain ⟨t'', s'⟩ := hd
      by_cases h2 : t'' = t
      · subst h2
        simp [setTask, lookupTask, h]
      · simp [setTask, lookupTask, h2, ih]

theorem getCurrent_setTask_ne (t t' : Nat) (h : t ≠ t') (s : Source) (w : World)
    (reg : List (Nat × Source)) :
    World.getCurrentTransaction t' { w with registry := setTask t s reg }
      = World.getCurrentTransaction t' { w with registry := reg } := by
  simp [World.getCurrentTransaction, lookupTask_setTask_ne t t' h]

theorem getElem?_append_len {α : Type} (l : List α) (a : α) : (l ++ [a])[l.length]? = some a := by
  induction l with
  | nil => rfl
  | cons x xs ih => simp [ih]

/-- The registry update made by `start` run by task t, seen from any task. -/
theorem start_registry (t t' i : Nat) (w : World) (h : t ≠ t') :
    ((start t i w).1).getCurrentTransaction t' = w.getCurrentTransaction t' := by
  cases hw : w.wrappers[i]? with
  | none => simp [start, hw]
  | some ws =>
      cases hconn : ws.connection with
      | some c =>
          simp [start, hw, hconn, World.getCurrentTransaction, lookupTask_setTask_ne t t' h]
      | none =>
          cases hacq : w.pool.acquire with
          | none => simp [start, hw, hconn, hacq]
          | some cp =>
              simp [start, hw, hconn, hacq, World.getCurrentTransaction,
                lookupTask_setTask_ne t t' h]

/-- The registry update made by `finalize` run by task t, seen from any task. -/
theorem finalize_registry (t t' i : Nat) (w : World) (h : t ≠ t') :
    ((finalize t i w).1).getCurrentTransaction t' = w.getCurrentTransaction t' := by
  cases hw : w.wrappers[i]? with
  | none => simp [finalize, hw]
  | some ws =>
      cases hold : ws.oldContextValue with
      | none => simp [finalize, hw, hold]
      | some old =>
          cases hconn : ws.connection with
          | none =>
              simp [finalize, hw, hold, hconn, World.getCurrentTransaction,
                lookupTask_setTask_ne t t' h]
          | some c =>
              cases hrel : Pool.release c w.pool with
              | none =>
                  simp [finalize, hw, hold, hconn, hrel, World.getCurrentTransaction,
                    lookupTask_setTask_ne t t' h]
              | some p =>
                  simp [finalize, hw, hold, hconn, hrel, World.getCurrentTransaction,
                    lookupTask_setTask_ne t t' h]

/-- The effect of finalize on an active scope: a pinned checked-out
connection, a saved previous registry value.  It releases the connection,
restores the calling task's registry entry, marks the scope finalized. -/
theorem finalize_active (t i : Nat) (w : World) (ws : WrapperState) (old : Source) (c : Nat)
    (hw : w.wrappers[i]? = some ws) (hold : ws.oldContextValue = some old)
    (hconn : ws.connection = some c) (hmem : c ∈ w.pool.inUse) :
    finalize t i w =
      ({ w with
           pool := { available := w.pool.available ++ [c], inUse := w.pool.inUse.erase c }
           wrappers := w.wrappers.set i { ws with finalized := true, connection := none }
           registry := setTask t old w.registry
           trace := w.trace ++
             [Event.finalizeRun i, Event.registrySet t old, Event.poolRelease c] },
       none) := by
  simp [finalize, hw, hold, hconn, Pool.release, hmem, List.set_set]

/-- The effect of commit on an active scope: native COMMIT then finalize. -/
theorem commit_active (t i : Nat) (w : World) (ws : WrapperState) (old : Source) (c : Nat)
    (hw : w.wrappers[i]? = some ws) (hfin : ws.finalized = false) (htxn : ws.txnStarted = true)
    (hold : ws.oldContextValue = some old) (hconn : ws.connection = some c)
    (hmem : c ∈ w.pool.inUse) :
    commit t i w =
      ({ w with
           pool := { available := w.pool.available ++ [c], inUse := w.pool.inUse.erase c }
           wrappers := w.wrappers.set i { ws with finalized := true, connection := none }
           registry := setTask t old w.registry
           trace := w.trace ++
             [Event.nativeCommit c, Event.finalizeRun i, Event.registrySet t old,
              Event.poolRelease c] },
       none) := by
  have hw2 : ({ w with trace := w.trace ++ [Event.nativeCommit c] } : World).wrappers[i]?
      = some ws := hw
  simp only [commit, hw, hfin, htxn, hconn, Bool.false_eq_true, if_false, if_true,
    Option.getD_some]
  rw [finalize_active t i _ ws old c hw2 hold hconn hmem]
  simp [htxn]

/-- The effect of rollback on an active scope: native ROLLBACK then finalize. -/
theorem rollback_active (t i : Nat) (w : World) (ws : WrapperState) (old : Source) (c : Nat)
    (hw : w.wrappers[i]? = some ws) (hfin : ws.finalized = false) (htxn : ws.txnStarted = true)
    (hold : ws.oldContextValue = some old) (hconn : ws.connection = some c)
    (hmem : c ∈ w.pool.inUse) :
    rollback t i w =
      ({ w with
           pool := { available := w.pool.available ++ [c], inUse := w.pool.inUse.erase c }
           wrappers := w.wrappers.set i { ws with finalized := true, connection := none }
           registry := setTask t old w.registry
           trace := w.trace ++
             [Event.nativeRollback c, Event.finalizeRun i, Event.registrySet t old,
              Event.poolRelease c] },
       none) := by
  have hw2 : ({ w with trace := w.trace ++ [Event.nativeRollback c] } : World).wrappers[i]?
      = some ws := hw
  simp only [rollback, hw, hfin, htxn, hconn, Bool.false_eq_true, if_false, if_true,
    Option.getD_some]
  rw [finalize_active t i _ ws old c hw2 hold hconn hmem]
  simp [htxn]

/-! ## Claims -/

/-- Claim C1: the Current-Transaction Registry is task-local per Client:
get_current_transaction returns the Transaction Scope the calling task
registered via start (or the Client itself if the task registered none), and
a ContextVar set performed by one task — in particular the ones start and
finalize perform — is never observed by a different concurrent task sharing
the same Client. -/
theorem c1_registry_task_local
    (t t' i : Nat) (s : Source) (w w2 : World) (ws : WrapperState)
    (conns : List Nat) (names : List String)
    (hne : t ≠ t')
    (hw : w.wrappers[i]? = some ws)
    (hok : (start t i w).2 = none) :
    (mkWorld conns names).getCurrentTransaction t = Source.client ∧
    ((start t i w).1).getCurrentTransaction t = Source.wrapper i ∧
    ((start t i w2).1).getCurrentTransaction t' = w2.getCurrentTransaction t' ∧
    ((finalize t i w2).1).getCurrentTransaction t' = w2.getCurrentTransaction t' ∧
    World.getCurrentTransaction t' { w2 with registry := setTask t s w2.registry }
      = w2.getCurrentTransaction t' := by
  refine ⟨by simp [mkWorld, World.getCurrentTransaction, lookupTask], ?_,
    start_registry t t' i w2 hne, finalize_registry t t' i w2 hne, ?_⟩
  · cases hconn : ws.connection with
    | some c =>
        simp [start, hw, hconn, World.getCurrentTransaction, lookupTask_setTask_self]
    | none =>
        cases hacq : w.pool.acquire with
        | none => simp [start, hw, hconn, hacq] at hok
        | some cp =>
            simp [start, hw, hconn, hacq, World.getCurrentTransaction, lookupTask_setTask_self]
  · simp [World.getCurrentTransaction, lookupTask_setTask_ne t t' hne]

/-- Witness for C1 at a concrete world: task 7 starts the root scope it
created; task 9 is unaffected. -/
theorem c1_registry_task_local_witness :
    (7 : Nat) ≠ 9 ∧
    ((inTransaction Source.client (mkWorld [0] ["default"])).2).wrappers[0]? =
      some { connection := none, txnStarted := false, oldContextValue := none
             finalized := false, parent := Source.client, lock := 0 } ∧
    (start 7 0 ((inTransaction Source.client (mkWorld [0] ["default"])).2)).2 = none ∧
    ((mkWorld [0] ["default"]).getCurrentTransaction 7 = Source.client ∧
      ((start 7 0 ((inTransaction Source.client (mkWorld [0] ["default"])).2)).1).getCurrentTransaction 7
        = Source.wrapper 0 ∧
      ((start 7 0 (mkWorld [3] ["x"])).1).getCurrentTransaction 9
        = (mkWorld [3] ["x"]).getCurrentTransaction 9 ∧
      ((finalize 7 0 (mkWorld [3] ["x"])).1).getCurrentTransaction 9
        = (mkWorld [3] ["x"]).getCurrentTransaction 9 ∧
      World.getCurrentTransaction 9
          { (mkWorld [3] ["x"]) with registry := setTask 7 Source.client (mkWorld [3] ["x"]).registry }
        = (mkWorld [3] ["x"]).getCurrentTransaction 9) :=
  ⟨by decide, by decide, by decide,
    c1_registry_task_local 7 9 0 Source.client
      ((inTransaction Source.client (mkWorld [0] ["default"])).2) (mkWorld [3] ["x"])
      { connection := none, txnStarted := false, oldContextValue := none
        finalized := false, parent := Source.client, lock := 0 }
      [0] ["default"] (by decide) (by decide) (by decide)⟩

/-- A started root scope: task 7 created a wrapper on the client of a
one-connection world and started it. -/
def startedWorld : World :=
  (start 7 0 (inTransaction Source.client (mkWorld [0] ["default"])).2).1

/-- The wrapper state of the started root scope in `startedWorld`. -/
def startedWrapper : WrapperState :=
  { connection := some 0, txnStarted := true, oldContextValue := some Source.client
    finalized := false, parent := Source.client, lock := 0 }

/-- The scoped block of C2's counterexample: the body commits the scope
manually and then raises ValueError, so __aexit__ runs rollback on the
already-finalized scope. -/
def c2Run : World × Option DBError :=
  aexit 7 0 (some (DBError.otherError "ValueError")) (commit 7 0 startedWorld).1

/-- Claim C2 fails as stated: when the scope was already finalized at exit
(here because the body committed manually before raising ValueError), the
rollback issued by __aexit__ raises TransactionManagementError and that
error, not the original ValueError, reaches the caller. -/
theorem c2_counterexample :
    c2Run.2 = some (DBError.transactionManagementError "Transaction already finalised") ∧
    c2Run.2 ≠ some (DBError.otherError "ValueError") := by
  constructor
  · rfl
  · decide

/-- Claim C2 (amended): for a Transaction Scope used as a scoped block,
exit with no error calls commit; exit due to a TransactionManagementError
calls finalize only (no second terminating command); exit due to any other
error calls rollback; and provided the scope is still active at exit
(started and not finalized, its pinned connection checked out), the original
error propagates to the caller unchanged.  If the scope was already
finalized at exit, the terminating call raises TransactionManagementError,
which replaces the original error. -/
theorem c2_scope_exit_policy
    (t i : Nat) (e : DBError) (w : World) (ws : WrapperState) (old : Source) (c : Nat)
    (hw : w.wrappers[i]? = some ws) (hfin : ws.finalized = false)
    (htxn : ws.txnStarted = true) (hold : ws.oldContextValue = some old)
    (hconn : ws.connection = some c) (hmem : c ∈ w.pool.inUse) :
    (aexit t i none w = commit t i w) ∧
    ((aexit t i none w).2 = none ∧
      (aexit t i none w).1.trace = w.trace ++
        [Event.nativeCommit c, Event.finalizeRun i, Event.registrySet t old,
         Event.poolRelease c]) ∧
    (DBError.isTME e = true →
      (aexit t i (some e) w).2 = some e ∧
      (aexit t i (some e) w).1.trace = w.trace ++
        [Event.finalizeRun i, Event.registrySet t old, Event.poolRelease c]) ∧
    (DBError.isTME e = false →
      (aexit t i (some e) w).2 = some e ∧
      (aexit t i (some e) w).1.trace = w.trace ++
        [Event.nativeRollback c, Event.finalizeRun i, Event.registrySet t old,
         Event.poolRelease c]) := by
  refine ⟨rfl, ?_, ?_, ?_⟩
  · simp only [aexit]
    rw [commit_active t i w ws old c hw hfin htxn hold hconn hmem]
    exact ⟨rfl, rfl⟩
  · intro htme
    simp only [aexit, htme, if_true]
    rw [finalize_active t i w ws old c hw hold hconn hmem]
    simp
  · intro htme
    simp only [aexit, htme, Bool.false_eq_true, if_false]
    rw [rollback_active t i w ws old c hw hfin htxn hold hconn hmem]
    simp

/-- Witness for C2 at the started root scope, with ValueError as the body
error. -/
theorem c2_scope_exit_policy_witness :
    (startedWorld.wrappers[0]? = some startedWrapper ∧
     startedWrapper.finalized = false ∧
     startedWrapper.txnStarted = true ∧
     startedWrapper.oldContextValue = some Source.client ∧
     startedWrapper.connection = some 0 ∧
     0 ∈ startedWorld.pool.inUse) ∧
    ((aexit 7 0 none startedWorld = commit 7 0 startedWorld) ∧
     ((aexit 7 0 none startedWorld).2 = none ∧
       (aexit 7 0 none startedWorld).1.trace = startedWorld.trace ++
         [Event.nativeCommit 0, Event.finalizeRun 0, Event.registrySet 7 Source.client,
          Event.poolRelease 0]) ∧
     (DBError.isTME (DBError.otherError "boom") = true →
       (aexit 7 0 (some (DBError.otherError "boom")) startedWorld).2 =
         some (DBError.otherError "boom") ∧
       (aexit 7 0 (some (DBError.otherError "boom")) startedWorld).1.trace =
         startedWorld.trace ++
           [Event.finalizeRun 0, Event.registrySet 7 Source.client, Event.poolRelease 0]) ∧
     (DBError.isTME (DBError.otherError "boom") = false →
       (aexit 7 0 (some (DBError.otherError "boom")) startedWorld).2 =
         some (DBError.otherError "boom") ∧
       (aexit 7 0 (some (DBError.otherError "boom")) startedWorld).1.trace =
         startedWorld.trace ++
           [Event.nativeRollback 0, Event.finalizeRun 0, Event.registrySet 7 Source.client,
            Event.poolRelease 0])) :=
  ⟨⟨by decide, rfl, rfl, rfl, rfl, by decide⟩,
    c2_scope_exit_policy 7 0 (DBError.otherError "boom") startedWorld startedWrapper
      Source.client 0 (by decide) rfl rfl rfl rfl (by decide)⟩

/-- Claim C3: a nested Transaction Scope created from a started scope pins
the identical connection as its parent, carries the identical lock object
(no fresh asyncio.Lock is allocated, so the whole nesting chain shares the
root lock), and its start() succeeds without acquiring anything from the
Pool. -/
theorem c3_nested_scope
    (t j : Nat) (w : World) (pw : WrapperState) (c : Nat)
    (hw : w.wrappers[j]? = some pw) (hconn : pw.connection = some c) :
    (inTransaction (Source.wrapper j) w).1 = w.wrappers.length ∧
    ((inTransaction (Source.wrapper j) w).2).wrappers[w.wrappers.length]? =
      some { connection := some c, txnStarted := false, oldContextValue := none
             finalized := false, parent := Source.wrapper j, lock := pw.lock } ∧
    ((inTransaction (Source.wrapper j) w).2).nextLock = w.nextLock ∧
    (start t w.wrappers.length ((inTransaction (Source.wrapper j) w).2)).2 = none ∧
    (start t w.wrappers.length ((inTransaction (Source.wrapper j) w).2)).1.pool = w.pool ∧
    (start t w.wrappers.length ((inTransaction (Source.wrapper j) w).2)).1.trace =
      w.trace ++ [Event.startRun w.wrappers.length, Event.nativeBegin c,
        Event.registrySet t (Source.wrapper w.wrappers.length)] := by
  have hget : ((inTransaction (Source.wrapper j) w).2).wrappers[w.wrappers.length]? =
      some { connection := some c, txnStarted := false, oldContextValue := none
             finalized := false, parent := Source.wrapper j, lock := pw.lock } := by
    have hlist : ((inTransaction (Source.wrapper j) w).2).wrappers
        = w.wrappers ++ [{ connection := pw.connection, txnStarted := false
                           oldContextValue := none, finalized := false
                           parent := Source.wrapper j, lock := pw.lock }] := by
      simp [inTransaction, hw]
    rw [hlist, hconn]
    exact getElem?_append_len w.wrappers _
  have hpool : ((inTransaction (Source.wrapper j) w).2).pool = w.pool := by
    simp [inTransaction, hw]
  have htrace : ((inTransaction (Source.wrapper j) w).2).trace = w.trace := by
    simp [inTransaction, hw]
  refine ⟨by simp [inTransaction, hw], hget, by simp [inTransaction, hw], ?_, ?_, ?_⟩
  · simp [start, hget]
  · simp [start, hget, hpool]
  · simp [start, hget, htrace]

/-- Witness for C3: the nested scope created inside the started root scope of
`startedWorld`, whose pool has no free connection left — so its successful
start cannot have acquired one. -/
theorem c3_nested_scope_witness :
    (startedWorld.wrappers[0]? = some startedWrapper ∧
     startedWrapper.connection = some 0) ∧
    ((inTransaction (Source.wrapper 0) startedWorld).1 = startedWorld.wrappers.length ∧
     ((inTransaction (Source.wrapper 0) startedWorld).2).wrappers[startedWorld.wrappers.length]? =
       some { connection := some 0, txnStarted := false, oldContextValue := none
              finalized := false, parent := Source.wrapper 0, lock := startedWrapper.lock } ∧
     ((inTransaction (Source.wrapper 0) startedWorld).2).nextLock = startedWorld.nextLock ∧
     (start 7 startedWorld.wrappers.length
        ((inTransaction (Source.wrapper 0) startedWorld).2)).2 = none ∧
     (start 7 startedWorld.wrappers.length
        ((inTransaction (Source.wrapper 0) startedWorld).2)).1.pool = startedWorld.pool ∧
     (start 7 startedWorld.wrappers.length
        ((inTransaction (Source.wrapper 0) startedWorld).2)).1.trace =
       startedWorld.trace ++ [Event.startRun startedWorld.wrappers.length,
         Event.nativeBegin 0,
         Event.registrySet 7 (Source.wrapper startedWorld.wrappers.length)]) :=
  ⟨⟨by decide, rfl⟩,
    c3_nested_scope 7 0 startedWorld startedWrapper 0 (by decide) rfl⟩

/-- The nested-transaction scenario that decides C4: task 7 starts a root
scope on a two-connection pool, creates a child scope from it, starts the
child, and the child commits. -/
def nestedCommitRun : World × Option DBError :=
  commit 7 1 (start 7 1 (inTransaction (Source.wrapper 0)
    (start 7 0 (inTransaction Source.client (mkWorld [0, 1] ["default"])).2).1).2).1

/-- Claim C4 is violated by the code: the child commit succeeds, and its
finalize hands the shared pinned connection 0 back to the Pool while the
root scope is still active (not finalized, still recording connection 0 as
pinned).  The root commit afterwards releases the same connection a second
time, which the driver rejects with InterfaceError. -/
theorem c4_nested_finalize_returns_root_connection :
    nestedCommitRun.2 = none ∧
    0 ∈ nestedCommitRun.1.pool.available ∧
    nestedCommitRun.1.wrappers[0]? =
      some { connection := some 0, txnStarted := true
             oldContextValue := some Source.client, finalized := false
             parent := Source.client, lock := 0 } ∧
    (commit 7 0 nestedCommitRun.1).2 =
      some (DBError.interfaceError "released a non-pool member") := by
  decide

/-- The world after the started root scope committed once. -/
def finalizedWorld : World := (commit 7 0 startedWorld).1

/-- The wrapper state of the root scope after its commit. -/
def finalizedWrapper : WrapperState :=
  { connection := none, txnStarted := true, oldContextValue := some Source.client
    finalized := true, parent := Source.client, lock := 0 }

/-- The scoped block of C5's counterexample: the body commits the scope,
commits it again (raising TransactionManagementError), and __aexit__ handles
the TransactionManagementError by calling finalize — a second finalize for
the single start. -/
def doubleCommitRun : World × Option DBError :=
  aexit 7 0 (some (DBError.transactionManagementError "Transaction already finalised"))
    finalizedWorld

/-- Claim C5 fails as stated: one start, then commit, then a second commit
(raising TransactionManagementError), then scope exit.  The trace contains
one start body run but two finalize body runs, so finalize does not occur
exactly once per start on every path. -/
theorem c5_counterexample :
    (commit 7 0 finalizedWorld).2 =
      some (DBError.transactionManagementError "Transaction already finalised") ∧
    doubleCommitRun.1.trace.count (Event.startRun 0) = 1 ∧
    doubleCommitRun.1.trace.count (Event.finalizeRun 0) = 2 := by
  decide

/-- Claim C5 (amended): commit() and rollback() each fail with
TransactionManagementError if the scope is already finalized, and otherwise
issue the corresponding native terminating command and then unconditionally
call finalize().  At most one finalize is reachable through commit/rollback
per start, but finalize itself has no executed-twice guard, so the scope-exit
path that handles a TransactionManagementError raised inside the block runs
finalize a second time for the same start. -/
theorem c5_commit_rollback
    (t i : Nat) (w w2 : World) (ws ws2 : WrapperState) (old : Source) (c : Nat)
    (hw : w.wrappers[i]? = some ws) (hfin : ws.finalized = false)
    (htxn : ws.txnStarted = true) (hold : ws.oldContextValue = some old)
    (hconn : ws.connection = some c) (hmem : c ∈ w.pool.inUse)
    (hw2 : w2.wrappers[i]? = some ws2) (hfin2 : ws2.finalized = true) :
    commit t i w =
      ({ w with
           pool := { available := w.pool.available ++ [c], inUse := w.pool.inUse.erase c }
           wrappers := w.wrappers.set i { ws with finalized := true, connection := none }
           registry := setTask t old w.registry
           trace := w.trace ++
             [Event.nativeCommit c, Event.finalizeRun i, Event.registrySet t old,
              Event.poolRelease c] },
       none) ∧
    rollback t i w =
      ({ w with
           pool := { available := w.pool.available ++ [c], inUse := w.pool.inUse.erase c }
           wrappers := w.wrappers.set i { ws with finalized := true, connection := none }
           registry := setTask t old w.registry
           trace := w.trace ++
             [Event.nativeRollback c, Event.finalizeRun i, Event.registrySet t old,
              Event.poolRelease c] },
       none) ∧
    commit t i w2 =
      (w2, some (DBError.transactionManagementError "Transaction already finalised")) ∧
    rollback t i w2 =
      (w2, some (DBError.transactionManagementError "Transaction already finalised")) :=
  ⟨commit_active t i w ws old c hw hfin htxn hold hconn hmem,
   rollback_active t i w ws old c hw hfin htxn hold hconn hmem,
   by simp [commit, hw2, hfin2],
   by simp [rollback, hw2, hfin2]⟩

/-- Witness for C5: the started root scope for the live case, and the same
scope after its commit for the already-finalized case. -/
theorem c5_commit_rollback_witness :
    (startedWorld.wrappers[0]? = some startedWrapper ∧
     startedWrapper.finalized = false ∧
     startedWrapper.txnStarted = true ∧
     startedWrapper.oldContextValue = some Source.client ∧
     startedWrapper.connection = some 0 ∧
     0 ∈ startedWorld.pool.inUse ∧
     finalizedWorld.wrappers[0]? = some finalizedWrapper ∧
     finalizedWrapper.finalized = true) ∧
    (commit 7 0 startedWorld =
      ({ startedWorld with
           pool := { available := startedWorld.pool.available ++ [0]
                     inUse := startedWorld.pool.inUse.erase 0 }
           wrappers := startedWorld.wrappers.set 0
             { startedWrapper with finalized := true, connection := none }
           registry := setTask 7 Source.client startedWorld.registry
           trace := startedWorld.trace ++
             [Event.nativeCommit 0, Event.finalizeRun 0, Event.registrySet 7 Source.client,
              Event.poolRelease 0] },
       none) ∧
     rollback 7 0 startedWorld =
      ({ startedWorld with
           pool := { available := startedWorld.pool.available ++ [0]
                     inUse := startedWorld.pool.inUse.erase 0 }
           wrappers := startedWorld.wrappers.set 0
             { startedWrapper with finalized := true, connection := none }
           registry := setTask 7 Source.client startedWorld.registry
           trace := startedWorld.trace ++
             [Event.nativeRollback 0, Event.finalizeRun 0, Event.registrySet 7 Source.client,
              Event.poolRelease 0] },
       none) ∧
     commit 7 0 finalizedWorld =
      (finalizedWorld, some (DBError.transactionManagementError "Transaction already finalised")) ∧
     rollback 7 0 finalizedWorld =
      (finalizedWorld, some (DBError.transactionManagementError "Transaction already finalised"))) :=
  ⟨⟨by decide, rfl, rfl, rfl, rfl, by decide, by decide, rfl⟩,
    c5_commit_rollback 7 0 startedWorld finalizedWorld startedWrapper finalizedWrapper
      Source.client 0 (by decide) rfl rfl rfl rfl (by decide) (by decide) rfl⟩

/-- A freshly constructed, never-started root scope on its own world. -/
def freshWorld : World := (inTransaction Source.client (mkWorld [5] ["x"])).2

/-- The wrapper state of the never-started scope in `freshWorld`. -/
def freshWrapper : WrapperState :=
  { connection := none, txnStarted := false, oldContextValue := none
    finalized := false, parent := Source.client, lock := 0 }

/-- Claim C6: finalize() invoked before start() fails with OperationalError;
invoked after start() (saved previous registry value, pinned checked-out
connection), it releases the pinned connection back to the Pool, restores
the calling task's registry entry to the saved value, and marks the scope
finalized. -/
theorem c6_finalize
    (t i : Nat) (w w2 : World) (ws ws2 : WrapperState) (old : Source) (c : Nat)
    (hw : w.wrappers[i]? = some ws) (hpre : ws.oldContextValue = none)
    (hw2 : w2.wrappers[i]? = some ws2) (hold2 : ws2.oldContextValue = some old)
    (hconn2 : ws2.connection = some c) (hmem2 : c ∈ w2.pool.inUse) :
    finalize t i w =
      (w, some (DBError.operationalError "Finalize was called before transaction start")) ∧
    (finalize t i w2).2 = none ∧
    (finalize t i w2).1.pool =
      { available := w2.pool.available ++ [c], inUse := w2.pool.inUse.erase c } ∧
    (finalize t i w2).1.getCurrentTransaction t = old ∧
    (finalize t i w2).1.wrappers =
      w2.wrappers.set i { ws2 with finalized := true, connection := none } := by
  have hfa := finalize_active t i w2 ws2 old c hw2 hold2 hconn2 hmem2
  refine ⟨by simp [finalize, hw, hpre], ?_, ?_, ?_, ?_⟩
  · rw [hfa]
  · rw [hfa]
  · rw [hfa]
    simp [World.getCurrentTransaction, lookupTask_setTask_self]
  · rw [hfa]

/-- Witness for C6: finalize before start on the fresh scope, finalize after
start on the started root scope. -/
theorem c6_finalize_witness :
    (freshWorld.wrappers[0]? = some freshWrapper ∧
     freshWrapper.oldContextValue = none ∧
     startedWorld.wrappers[0]? = some startedWrapper ∧
     startedWrapper.oldContextValue = some Source.client ∧
     startedWrapper.connection = some 0 ∧
     0 ∈ startedWorld.pool.inUse) ∧
    (finalize 7 0 freshWorld =
      (freshWorld, some (DBError.operationalError "Finalize was called before transaction start")) ∧
     (finalize 7 0 startedWorld).2 = none ∧
     (finalize 7 0 startedWorld).1.pool =
       { available := startedWorld.pool.available ++ [0]
         inUse := startedWorld.pool.inUse.erase 0 } ∧
     (finalize 7 0 startedWorld).1.getCurrentTransaction 7 = Source.client ∧
     (finalize 7 0 startedWorld).1.wrappers =
       startedWorld.wrappers.set 0 { startedWrapper with finalized := true, connection := none }) :=
  ⟨⟨by decide, rfl, by decide, rfl, rfl, by decide⟩,
    c6_finalize 7 0 freshWorld startedWorld freshWrapper startedWrapper Source.client 0
      (by decide) rfl (by decide) rfl rfl (by decide)⟩

/-- Claim C7 fails as stated: after a successful first start, a second
start() on the same Transaction Scope raises nothing at all — there is no
double-invocation guard in TransactionWrapper.start. -/
theorem c7_counterexample :
    (start 7 0 (inTransaction Source.client (mkWorld [0] ["default"])).2).2 = none ∧
    (start 7 0 startedWorld).2 = none := by
  decide

/-- Claim C7 (amended): calling start() on a Transaction Scope whose
connection is already pinned — in particular a second start() on the same
scope — does not fail: it acquires nothing from the Pool, begins another
native transaction on the pinned connection, registers the scope as current
again, and overwrites the saved previous registry value with the registry's
current value (after a first start, the scope itself). -/
theorem c7_second_start
    (t i c : Nat) (w : World) (ws : WrapperState)
    (hw : w.wrappers[i]? = some ws) (hconn : ws.connection = some c) :
    (start t i w).2 = none ∧
    (start t i w).1.pool = w.pool ∧
    (start t i w).1.trace = w.trace ++
      [Event.startRun i, Event.nativeBegin c, Event.registrySet t (Source.wrapper i)] ∧
    (start t i w).1.wrappers = w.wrappers.set i
      { ws with connection := some c, txnStarted := true
                oldContextValue := some (w.getCurrentTransaction t) } := by
  refine ⟨?_, ?_, ?_, ?_⟩ <;> simp [start, hw, hconn]

/-- Witness for C7: the second start on the started root scope; the saved
previous registry value becomes the scope itself. -/
theorem c7_second_start_witness :
    (startedWorld.wrappers[0]? = some startedWrapper ∧
     startedWrapper.connection = some 0) ∧
    ((start 7 0 startedWorld).2 = none ∧
     (start 7 0 startedWorld).1.pool = startedWorld.pool ∧
     (start 7 0 startedWorld).1.trace = startedWorld.trace ++
       [Event.startRun 0, Event.nativeBegin 0, Event.registrySet 7 (Source.wrapper 0)] ∧
     (start 7 0 startedWorld).1.wrappers = startedWorld.wrappers.set 0
       { startedWrapper with connection := some 0, txnStarted := true
                             oldContextValue := some (startedWorld.getCurrentTransaction 7) }) :=
  ⟨⟨by decide, rfl⟩,
    c7_second_start 7 0 0 startedWorld startedWrapper (by decide) rfl⟩

/-- The trace a successful driver call leaves on the borrowed connection;
a raising driver call leaves none. -/
def bodyEvents (q : String) (c : Nat) : Option DBError → List Event
  | none => [Event.driverExec c q]
  | some _ => []

/-- Claim C8: each non-transactional data operation acquires exactly one
connection from the Pool on entry, releases that same connection on exit —
also when the driver call raises — and re-raises the translated body error;
the available-connection count afterwards equals the count before. -/
theorem c8_pool_scoped_execution
    (q : String) (bodyErr : Option DBError) (w : World) (c : Nat) (rest : List Nat)
    (hav : w.pool.available = c :: rest) :
    executeInsert q bodyErr w =
      ({ w with
           pool := { available := rest ++ [c], inUse := w.pool.inUse }
           trace := w.trace ++ [Event.poolAcquire c] ++
             bodyEvents q c bodyErr ++
             [Event.poolRelease c] },
       translateExceptions bodyErr) ∧
    executeMany q bodyErr w =
      ({ w with
           pool := { available := rest ++ [c], inUse := w.pool.inUse }
           trace := w.trace ++ [Event.poolAcquire c] ++
             bodyEvents q c bodyErr ++
             [Event.poolRelease c] },
       translateExceptions bodyErr) ∧
    executeQuery q bodyErr w =
      ({ w with
           pool := { available := rest ++ [c], inUse := w.pool.inUse }
           trace := w.trace ++ [Event.poolAcquire c] ++
             bodyEvents q c bodyErr ++
             [Event.poolRelease c] },
       translateExceptions bodyErr) ∧
    executeScript q bodyErr w =
      ({ w with
           pool := { available := rest ++ [c], inUse := w.pool.inUse }
           trace := w.trace ++ [Event.poolAcquire c] ++
             bodyEvents q c bodyErr ++
             [Event.poolRelease c] },
       translateExceptions bodyErr) ∧
    (executeInsert q bodyErr w).1.pool.available.length = w.pool.available.length := by
  have hacq : w.pool.acquire = some (c, { available := rest, inUse := c :: w.pool.inUse }) := by
    simp [Pool.acquire, hav]
  have key : poolScoped (driverCall q bodyErr) w =
      ({ w with
           pool := { available := rest ++ [c], inUse := w.pool.inUse }
           trace := w.trace ++ [Event.poolAcquire c] ++
             bodyEvents q c bodyErr ++
             [Event.poolRelease c] },
       bodyErr) := by
    cases bodyErr with
    | none =>
        simp [poolScoped, hacq, driverCall, bodyEvents, Pool.release, List.erase_cons_head]
    | some e =>
        simp [poolScoped, hacq, driverCall, bodyEvents, Pool.release, List.erase_cons_head]
  have h1 : executeInsert q bodyErr w =
      ({ w with
           pool := { available := rest ++ [c], inUse := w.pool.inUse }
           trace := w.trace ++ [Event.poolAcquire c] ++
             bodyEvents q c bodyErr ++
             [Event.poolRelease c] },
       translateExceptions bodyErr) := by
    simp [executeInsert, key]
  refine ⟨h1, by simp [executeMany, key], by simp [executeQuery, key],
    by simp [executeScript, key], ?_⟩
  rw [h1]
  simp [hav]

/-- Witness for C8 on a two-connection pool, with the driver raising a
syntax error that translate_exceptions converts to OperationalError. -/
theorem c8_pool_scoped_execution_witness :
    ((mkWorld [0, 1] ["default"]).pool.available = 0 :: [1]) ∧
    (executeInsert "INSERT" (some (DBError.syntaxOrAccessError "boom")) (mkWorld [0, 1] ["default"]) =
      ({ (mkWorld [0, 1] ["default"]) with
           pool := { available := [1] ++ [0], inUse := (mkWorld [0, 1] ["default"]).pool.inUse }
           trace := (mkWorld [0, 1] ["default"]).trace ++ [Event.poolAcquire 0] ++
             bodyEvents "INSERT" 0 (some (DBError.syntaxOrAccessError "boom")) ++
             [Event.poolRelease 0] },
       translateExceptions (some (DBError.syntaxOrAccessError "boom"))) ∧
     executeMany "INSERT" (some (DBError.syntaxOrAccessError "boom")) (mkWorld [0, 1] ["default"]) =
      ({ (mkWorld [0, 1] ["default"]) with
           pool := { available := [1] ++ [0], inUse := (mkWorld [0, 1] ["default"]).pool.inUse }
           trace := (mkWorld [0, 1] ["default"]).trace ++ [Event.poolAcquire 0] ++
             bodyEvents "INSERT" 0 (some (DBError.syntaxOrAccessError "boom")) ++
             [Event.poolRelease 0] },
       translateExceptions (some (DBError.syntaxOrAccessError "boom"))) ∧
     executeQuery "INSERT" (some (DBError.syntaxOrAccessError "boom")) (mkWorld [0, 1] ["default"]) =
      ({ (mkWorld [0, 1] ["default"]) with
           pool := { available := [1] ++ [0], inUse := (mkWorld [0, 1] ["default"]).pool.inUse }
           trace := (mkWorld [0, 1] ["default"]).trace ++ [Event.poolAcquire 0] ++
             bodyEvents "INSERT" 0 (some (DBError.syntaxOrAccessError "boom")) ++
             [Event.poolRelease 0] },
       translateExceptions (some (DBError.syntaxOrAccessError "boom"))) ∧
     executeScript "INSERT" (some (DBError.syntaxOrAccessError "boom")) (mkWorld [0, 1] ["default"]) =
      ({ (mkWorld [0, 1] ["default"]) with
           pool := { available := [1] ++ [0], inUse := (mkWorld [0, 1] ["default"]).pool.inUse }
           trace := (mkWorld [0, 1] ["default"]).trace ++ [Event.poolAcquire 0] ++
             bodyEvents "INSERT" 0 (some (DBError.syntaxOrAccessError "boom")) ++
             [Event.poolRelease 0] },
       translateExceptions (some (DBError.syntaxOrAccessError "boom"))) ∧
     (executeInsert "INSERT" (some (DBError.syntaxOrAccessError "boom"))
        (mkWorld [0, 1] ["default"])).1.pool.available.length =
       (mkWorld [0, 1] ["default"]).pool.available.length) :=
  ⟨rfl,
    c8_pool_scoped_execution "INSERT" (some (DBError.syntaxOrAccessError "boom"))
      (mkWorld [0, 1] ["default"]) 0 [1] rfl⟩

/-- A client configured with a schema, before its first create_connection. -/
def schemaClient : ClientState :=
  { template := none, pool := none, schema := some "myschema", minSize := 1 }

/-- Claim C9 fails as stated: calling create_connection again after the pool
exists is not a no-op — because schemaClient configures a schema, the
repeated call borrows a connection and re-executes SET search_path, a fresh
side effect. -/
theorem c9_counterexample :
    (createConnection true (createConnection true schemaClient).1).2.1 =
      [Event.poolAcquire 0, Event.driverExec 0 "SET search_path TO myschema",
       Event.poolRelease 0] ∧
    (createConnection true (createConnection true schemaClient).1).2.1 ≠ [] := by
  constructor
  · rfl
  · decide

/-- Claim C9 (amended): when a pool already exists, create_connection keeps
it and creates no new pool; with no schema configured the repeated call is a
no-op apart from reassigning the connection template; but with a schema
configured every call — not only the creating one — re-runs SET search_path
through a borrowed connection, so the repeated call has side effects. -/
theorem c9_create_connection
    (withDb : Bool) (st st2 : ClientState) (p p2 : Pool) (s : String) (c : Nat)
    (rest : List Nat)
    (hp : st.pool = some p) (hschema : st.schema = some s) (hav : p.available = c :: rest)
    (hp2 : st2.pool = some p2) (hschema2 : st2.schema = none) :
    createConnection withDb st2 = ({ st2 with template := some withDb }, [], none) ∧
    (createConnection withDb st).1 =
      { st with template := some withDb
                pool := some { available := rest ++ [c], inUse := p.inUse } } ∧
    (createConnection withDb st).2.1 =
      [Event.poolAcquire c, Event.driverExec c ("SET search_path TO " ++ s),
       Event.poolRelease c] ∧
    (createConnection withDb st).2.2 = none ∧
    Event.poolCreate ∉ (createConnection withDb st).2.1 := by
  have hacq : Pool.acquire p = some (c, { available := rest, inUse := c :: p.inUse }) := by
    simp [Pool.acquire, hav]
  have hrun : createConnection withDb st =
      ({ st with template := some withDb
                 pool := some { available := rest ++ [c], inUse := p.inUse } },
       [Event.poolAcquire c, Event.driverExec c ("SET search_path TO " ++ s),
        Event.poolRelease c], none) := by
    simp [createConnection, hp, hschema, hacq, Pool.release, List.erase_cons_head]
  refine ⟨by simp [createConnection, hp2, hschema2], by rw [hrun], by rw [hrun],
    by rw [hrun], ?_⟩
  rw [hrun]
  simp

/-- The schema-configured client after its first create_connection call. -/
def schemaClientReady : ClientState :=
  { template := some true, pool := some { available := [0], inUse := [] }
    schema := some "myschema", minSize := 1 }

/-- The same client state without a configured schema. -/
def plainClientReady : ClientState :=
  { template := some true, pool := some { available := [0], inUse := [] }
    schema := none, minSize := 1 }

/-- Witness for C9: repeated create_connection on a client whose pool exists,
with and without a configured schema. -/
theorem c9_create_connection_witness :
    (schemaClientReady.pool = some { available := [0], inUse := [] } ∧
     schemaClientReady.schema = some "myschema" ∧
     plainClientReady.pool = some { available := [0], inUse := [] } ∧
     plainClientReady.schema = none) ∧
    (createConnection true plainClientReady =
      ({ plainClientReady with template := some true }, [], none) ∧
     (createConnection true schemaClientReady).1 =
       { schemaClientReady with
           template := some true
           pool := some { available := [] ++ [0]
                          inUse := Pool.inUse { available := [0], inUse := [] } } } ∧
     (createConnection true schemaClientReady).2.1 =
       [Event.poolAcquire 0, Event.driverExec 0 ("SET search_path TO " ++ "myschema"),
        Event.poolRelease 0] ∧
     (createConnection true schemaClientReady).2.2 = none ∧
     Event.poolCreate ∉ (createConnection true schemaClientReady).2.1) :=
  ⟨⟨rfl, rfl, rfl, rfl⟩,
    c9_create_connection true schemaClientReady plainClientReady
      { available := [0], inUse := [] } { available := [0], inUse := [] }
      "myschema" 0 [] rfl rfl rfl rfl rfl⟩

/-- Claim C10: for in_transaction, atomic and start_transaction with no
connection name: with exactly one registered named connection, that
connection's current transaction source is used (the call behaves exactly
like naming it); with more than one, the call fails with ParamsError and the
world is untouched — no transaction work is done. -/
theorem c10_connection_resolution
    (t : Nat) (bodyErr : Option DBError) (w wm : World) (n : String)
    (hone : w.connectionNames = [n]) (hmany : 2 ≤ wm.connectionNames.length) :
    getConnection t none w = Except.ok (w.getCurrentTransaction t) ∧
    startTransaction t none w = startTransaction t (some n) w ∧
    getConnection t none wm = Except.error (DBError.paramsError
      "You are running with multiple databases, so you should specify connection_name") ∧
    startTransaction t none wm = (wm, some (DBError.paramsError
      "You are running with multiple databases, so you should specify connection_name"), none) ∧
    inTransactionAPI t none wm = (wm, some (DBError.paramsError
      "You are running with multiple databases, so you should specify connection_name"), none) ∧
    atomicCall t none bodyErr wm = (wm, some (DBError.paramsError
      "You are running with multiple databases, so you should specify connection_name")) := by
  have hlen : wm.connectionNames.length ≠ 1 := by omega
  have hgc : getConnection t none w = Except.ok (w.getCurrentTransaction t) := by
    simp [getConnection, hone]
  have hgcs : getConnection t (some n) w = Except.ok (w.getCurrentTransaction t) := by
    simp [getConnection, hone]
  have hgcm : getConnection t none wm = Except.error (DBError.paramsError
      "You are running with multiple databases, so you should specify connection_name") := by
    simp [getConnection, hlen]
  refine ⟨hgc, ?_, hgcm, ?_, ?_, ?_⟩
  · simp [startTransaction, hgc, hgcs]
  · simp [startTransaction, hgcm]
  · simp [inTransactionAPI, hgcm]
  · simp [atomicCall, hgcm]

/-- Witness for C10: a single-connection registry named solo, and a
two-connection registry. -/
theorem c10_connection_resolution_witness :
    ((mkWorld [0] ["solo"]).connectionNames = ["solo"] ∧
     2 ≤ (mkWorld [0] ["a", "b"]).connectionNames.length) ∧
    (getConnection 7 none (mkWorld [0] ["solo"]) =
       Except.ok ((mkWorld [0] ["solo"]).getCurrentTransaction 7) ∧
     startTransaction 7 none (mkWorld [0] ["solo"]) =
       startTransaction 7 (some "solo") (mkWorld [0] ["solo"]) ∧
     getConnection 7 none (mkWorld [0] ["a", "b"]) = Except.error (DBError.paramsError
       "You are running with multiple databases, so you should specify connection_name") ∧
     startTransaction 7 none (mkWorld [0] ["a", "b"]) =
       ((mkWorld [0] ["a", "b"]), some (DBError.paramsError
         "You are running with multiple databases, so you should specify connection_name"), none) ∧
     inTransactionAPI 7 none (mkWorld [0] ["a", "b"]) =
       ((mkWorld [0] ["a", "b"]), some (DBError.paramsError
         "You are running with multiple databases, so you should specify connection_name"), none) ∧
     atomicCall 7 none none (mkWorld [0] ["a", "b"]) =
       ((mkWorld [0] ["a", "b"]), some (DBError.paramsError
         "You are running with multiple databases, so you should specify connection_name"))) :=
  ⟨⟨rfl, by decide⟩,
    c10_connection_resolution 7 none (mkWorld [0] ["solo"]) (mkWorld [0] ["a", "b"])
      "solo" rfl (by decide)⟩

end Postmodel
